import Mathlib

/-!
# Desk-booking bot: verification of the booking state engine

Shallow embedding of `src/app.py`. The PostgreSQL table
`bookings (day TEXT, room TEXT, user_id TEXT, PRIMARY KEY (day, room))`
is modelled as an association list of rows `((day, room), user_id)`.
The three SQL statements used by the app — the `SELECT` of an owner, the
`INSERT ... ON CONFLICT (day, room) DO UPDATE`, and the
`DELETE ... WHERE day = %s AND room = %s` — become `lookupStore`,
`upsertStore` and `deleteStore` respectively.

`toggle_booking` performs the `SELECT` and then, in a second statement,
the conditional write; this read step and write step are embedded
separately (`lookupStore` / `toggleWrite`) so that their sequential
composition (`toggleOnRoom`) is the function the app runs, while an
interleaving of the two steps from distinct sessions exhibits the
read-then-write race.
-/

namespace DeskBot

/-- `ROOMS_DISPLAY` from src/app.py line 14. -/
def ROOMS_DISPLAY : List String :=
  ["Small 1", "Small 2", "Large 1", "Large 2", "Large 3", "Large 4"]

/-- `ROOMS_DB` from src/app.py line 15: the stable internal room names. -/
def ROOMS_DB : List String :=
  ["Small Room 1", "Small Room 2", "Large Room 1", "Large Room 2",
   "Large Room 3", "Large Room 4"]

/-- `DAYS` from src/app.py line 16. -/
def DAYS : List String :=
  ["Monday", "Tuesday", "Wednesday", "Thursday", "Friday"]

/-- A row of the `bookings` table: `((day, room), user_id)`. -/
abbrev Row := (String × String) × String

/-- The `bookings` table, as the list of its rows. -/
abbrev Store := List Row

/-- Row predicate matching `WHERE day = %s AND room = %s`. -/
def rowMatches (day room : String) (e : Row) : Bool :=
  e.1.1 == day && e.1.2 == room

/-- `SELECT user_id FROM bookings WHERE day = %s AND room = %s` followed by
`row[0] if row else None` (src/app.py lines 84-86). -/
def lookupStore (s : Store) (day room : String) : Option String :=
  (s.find? (rowMatches day room)).map (fun e => e.2)

/-- `INSERT INTO bookings (day, room, user_id) VALUES (%s,%s,%s)
ON CONFLICT (day, room) DO UPDATE SET user_id = EXCLUDED.user_id`
(src/app.py lines 90-93): if a row with the primary key exists its
`user_id` is overwritten, otherwise a new row is inserted. -/
def upsertStore (s : Store) (day room user : String) : Store :=
  if (s.find? (rowMatches day room)).isSome then
    s.map (fun e => if rowMatches day room e then ((e.1.1, e.1.2), user) else e)
  else
    s ++ [((day, room), user)]

/-- `DELETE FROM bookings WHERE day = %s AND room = %s` (src/app.py line 96). -/
def deleteStore (s : Store) (day room : String) : Store :=
  s.filter (fun e => !(rowMatches day room e))

/-- The second half of `toggle_booking` (src/app.py lines 88-99): the branch
on the observed `current_owner`, issuing the conditional write. `observed`
is the value the preceding `SELECT` returned, which under concurrency may
be stale. Returns the new table and the `result` string. -/
def toggleWrite (s : Store) (day room : String) (observed : Option String)
    (user : String) : Store × String :=
  match observed with
  | none => (upsertStore s day room user, "booked")
  | some owner =>
      if owner == user then (deleteStore s day room, "unbooked")
      else (s, "taken")

/-- `toggle_booking`'s body once the room name is known: the `SELECT`
(read) immediately followed by the conditional write, as a single
sequential session (src/app.py lines 84-99). -/
def toggleOnRoom (s : Store) (day room user : String) : Store × String :=
  toggleWrite s day room (lookupStore s day room) user

/-- Python list indexing `l[i]` for `i : int`: non-negative indices from the
front, negative indices from the back, `none` models the `IndexError`. -/
def pyListGet {α : Type} (l : List α) (i : Int) : Option α :=
  if 0 ≤ i then l.get? i.toNat
  else if 0 ≤ i + l.length then l.get? (i + l.length).toNat
  else none

/-- `toggle_booking(day, room_index, user_id)` (src/app.py lines 79-104).
`room_name = ROOMS_DB[room_index]` runs before the database connection is
opened; if it raises `IndexError` (`pyListGet` returns `none`) no outcome
is produced and the store is untouched. -/
def toggle_booking (s : Store) (day : String) (room_index : Int)
    (user_id : String) : Option (Store × String) :=
  (pyListGet ROOMS_DB room_index).map (fun room => toggleOnRoom s day room user_id)

/-- `reset_db()` (src/app.py lines 106-112): `DELETE FROM bookings`. -/
def reset_db (_s : Store) : Store := []

/-- The snapshot grid type: day, then room, then owner-or-empty. -/
abbrev Grid := List (String × List (String × Option String))

/-- The initial grid `{day: {room: None for room in ROOMS_DB} for day in DAYS}`
(src/app.py line 72). -/
def initGrid : Grid :=
  DAYS.map (fun d => (d, ROOMS_DB.map (fun r => (r, (none : Option String)))))

/-- One iteration of the fill loop (src/app.py lines 73-76):
`if day in data and room in data[day]: data[day][room] = user`.
Updating only matching keys of the grid is exactly the guarded
dictionary assignment. -/
def applyRow (g : Grid) (row : Row) : Grid :=
  g.map (fun p =>
    if p.1 == row.1.1 then
      (p.1, p.2.map (fun q => if q.1 == row.1.2 then (q.1, some row.2) else q))
    else p)

/-- `get_weekly_bookings()` (src/app.py lines 64-77): read all rows and fold
them into the initial all-free grid. -/
def get_weekly_bookings (s : Store) : Grid :=
  s.foldl applyRow initGrid

lemma find?_append_none {α : Type} (p : α → Bool) (l1 l2 : List α)
    (h : l1.find? p = none) : (l1 ++ l2).find? p = l2.find? p := by
  induction l1 with
  | nil => rfl
  | cons a t ih =>
      cases ha : p a with
      | true => simp [List.find?_cons, ha] at h
      | false =>
          rw [List.find?_cons, ha] at h
          simpa [List.find?_cons, ha] using ih h

lemma find?_map_invariant {α : Type} (p : α → Bool) (f : α → α)
    (hpres : ∀ x, p (f x) = p x) :
    ∀ l : List α, (l.map f).find? p = (l.find? p).map f := by
  intro l
  induction l with
  | nil => rfl
  | cons a t ih =>
      cases ha : p a with
      | true =>
          have hfa : p (f a) = true := by rw [hpres]; exact ha
          simp [List.find?_cons, ha, hfa]
      | false =>
          have hfa : p (f a) = false := by rw [hpres]; exact ha
          simp [List.find?_cons, ha, hfa, ih]

lemma find?_filter_not {α : Type} (p : α → Bool) (l : List α) :
    (l.filter (fun a => !(p a))).find? p = none := by
  induction l with
  | nil => rfl
  | cons a t ih =>
      cases ha : p a <;> simp [List.filter_cons, ha, List.find?_cons, ih]

/-- After the upsert, the slot's owner is the given user. -/
lemma lookup_upsert_self (s : Store) (d r u : String) :
    lookupStore (upsertStore s d r u) d r = some u := by
  unfold lookupStore upsertStore
  cases h : s.find? (rowMatches d r) with
  | none =>
      simp only [h, Option.isSome_none, Bool.false_eq_true, if_false]
      rw [find?_append_none _ _ _ h]
      simp [List.find?_cons, rowMatches]
  | some e =>
      simp only [h, Option.isSome_some, if_true]
      rw [find?_map_invariant (rowMatches d r)
        (fun e => if rowMatches d r e then ((e.1.1, e.1.2), u) else e)
        (by
          intro x
          cases hx : rowMatches d r x with
          | true =>
              simp only [hx, if_true]
              simp only [rowMatches] at hx ⊢
              exact hx
          | false => simp [hx])]
      have he : rowMatches d r e = true := List.find?_some h
      simp [h, he]

/-- After the delete, the slot is free. -/
lemma lookup_delete_self (s : Store) (d r : String) :
    lookupStore (deleteStore s d r) d r = none := by
  unfold lookupStore deleteStore
  rw [find?_filter_not]
  rfl

/-- With a valid room index and a free slot, `toggle_booking` books it. -/
lemma toggle_booking_free (s : Store) (d room u : String) (i : Int)
    (hi : pyListGet ROOMS_DB i = some room)
    (h : lookupStore s d room = none) :
    toggle_booking s d i u = some (upsertStore s d room u, "booked") := by
  have hb : toggleOnRoom s d room u = (upsertStore s d room u, "booked") := by
    unfold toggleOnRoom
    rw [h]
    simp [toggleWrite]
  simp [toggle_booking, hi, hb]

/-- With a valid room index and a slot owned by the caller, `toggle_booking`
releases it. -/
lemma toggle_booking_self (s : Store) (d room u : String) (i : Int)
    (hi : pyListGet ROOMS_DB i = some room)
    (h : lookupStore s d room = some u) :
    toggle_booking s d i u = some (deleteStore s d room, "unbooked") := by
  have hb : toggleOnRoom s d room u = (deleteStore s d room, "unbooked") := by
    unfold toggleOnRoom
    rw [h]
    simp [toggleWrite]
  simp [toggle_booking, hi, hb]

/-- With a valid room index and a slot owned by someone else, `toggle_booking`
reports `"taken"` and leaves the table untouched. -/
lemma toggle_booking_other (s : Store) (d room u v : String) (i : Int)
    (hi : pyListGet ROOMS_DB i = some room)
    (h : lookupStore s d room = some v) (hv : v ≠ u) :
    toggle_booking s d i u = some (s, "taken") := by
  have hb : toggleOnRoom s d room u = (s, "taken") := by
    unfold toggleOnRoom
    rw [h]
    simp [toggleWrite, hv]
  simp [toggle_booking, hi, hb]

/-- C1: `toggle_booking` is implemented as a separate `SELECT` followed by a
separate conditional write, not as one compound atomic claim. Interleaving
the two halves of two sessions on the same initially-free slot (both
sessions read before either writes) makes BOTH calls return `"booked"`
— not exactly one `"booked"` and one `"taken"` — and the second writer's
`ON CONFLICT DO UPDATE` silently overwrites the first owner. This
evaluates the code on that failing schedule. -/
theorem toggle_read_write_race :
    let s0 : Store := []
    let o1 := lookupStore s0 "Monday" "Small Room 1"
    let o2 := lookupStore s0 "Monday" "Small Room 1"
    let w1 := toggleWrite s0 "Monday" "Small Room 1" o1 "U1"
    let w2 := toggleWrite w1.1 "Monday" "Small Room 1" o2 "U2"
    w1.2 = "booked" ∧ w2.2 = "booked" ∧
    lookupStore w2.1 "Monday" "Small Room 1" = some "U2" := by
  decide

/-- C2: for every valid day, valid resource index and actor, one sequential
`toggle_booking` call follows the three-row state table: a free slot is
booked and becomes owned by the actor; a slot owned by the actor is
unbooked and becomes free; a slot owned by a different actor yields
`"taken"` (Conflict) and the table is returned unchanged. -/
theorem toggle_state_table (s : Store) (d room u : String) (i : Int)
    (_hd : d ∈ DAYS) (hi : pyListGet ROOMS_DB i = some room) :
    (lookupStore s d room = none →
      toggle_booking s d i u = some (upsertStore s d room u, "booked") ∧
      lookupStore (upsertStore s d room u) d room = some u) ∧
    (lookupStore s d room = some u →
      toggle_booking s d i u = some (deleteStore s d room, "unbooked") ∧
      lookupStore (deleteStore s d room) d room = none) ∧
    (∀ v, lookupStore s d room = some v → v ≠ u →
      toggle_booking s d i u = some (s, "taken")) := by
  refine ⟨fun h => ⟨?_, ?_⟩, fun h => ⟨?_, ?_⟩, fun v h hv => ?_⟩
  · exact toggle_booking_free s d room u i hi h
  · exact lookup_upsert_self s d room u
  · exact toggle_booking_self s d room u i hi h
  · exact lookup_delete_self (s := s) d room
  · exact toggle_booking_other s d room u v i hi h hv

/-- Witness for C2 at concrete inputs: on the empty table, actor U1 toggling
(Monday, index 0) gets `"booked"` and owns the slot. -/
theorem toggle_state_table_witness :
    toggle_booking [] "Monday" 0 "U1"
      = some (upsertStore [] "Monday" "Small Room 1" "U1", "booked") ∧
    lookupStore (upsertStore [] "Monday" "Small Room 1" "U1")
      "Monday" "Small Room 1" = some "U1" :=
  (toggle_state_table [] "Monday" "Small Room 1" "U1" 0
    (by decide) (by decide)).1 rfl

/-- C3: toggle is a true flip. If actor `a` owns the slot, toggling releases
it (`"unbooked"`, slot free); toggling again re-books it (`"booked"`) and
`a` owns the slot once more, restoring the original ownership. -/
theorem toggle_true_flip (s : Store) (d room a : String) (i : Int)
    (hi : pyListGet ROOMS_DB i = some room)
    (hown : lookupStore s d room = some a) :
    toggle_booking s d i a = some (deleteStore s d room, "unbooked") ∧
    lookupStore (deleteStore s d room) d room = none ∧
    toggle_booking (deleteStore s d room) d i a
      = some (upsertStore (deleteStore s d room) d room a, "booked") ∧
    lookupStore (upsertStore (deleteStore s d room) d room a) d room
      = some a := by
  refine ⟨toggle_booking_self s d room a i hi hown,
    lookup_delete_self s d room,
    toggle_booking_free _ d room a i hi (lookup_delete_self s d room),
    lookup_upsert_self _ d room a⟩

/-- Witness for C3: U1 owns (Monday, Small Room 1); two successive toggles
return `"unbooked"` then `"booked"` and U1 owns the slot again. -/
theorem toggle_true_flip_witness :
    toggle_booking [(("Monday", "Small Room 1"), "U1")] "Monday" 0 "U1"
      = some (deleteStore [(("Monday", "Small Room 1"), "U1")]
          "Monday" "Small Room 1", "unbooked") ∧
    lookupStore (deleteStore [(("Monday", "Small Room 1"), "U1")]
      "Monday" "Small Room 1") "Monday" "Small Room 1" = none ∧
    toggle_booking (deleteStore [(("Monday", "Small Room 1"), "U1")]
        "Monday" "Small Room 1") "Monday" 0 "U1"
      = some (upsertStore (deleteStore [(("Monday", "Small Room 1"), "U1")]
          "Monday" "Small Room 1") "Monday" "Small Room 1" "U1", "booked") ∧
    lookupStore (upsertStore (deleteStore [(("Monday", "Small Room 1"), "U1")]
      "Monday" "Small Room 1") "Monday" "Small Room 1" "U1")
      "Monday" "Small Room 1" = some "U1" :=
  toggle_true_flip [(("Monday", "Small Room 1"), "U1")]
    "Monday" "Small Room 1" "U1" 0 (by decide) (by decide)

/-- C4: if actor `b` toggles a slot owned by `a ≠ b`, the result is
`"taken"` and the returned table is the input table itself — `a` still owns
the slot and no other row is modified. -/
theorem nonowner_conflict (s : Store) (d room a b : String) (i : Int)
    (hi : pyListGet ROOMS_DB i = some room)
    (hown : lookupStore s d room = some a) (hne : b ≠ a) :
    toggle_booking s d i b = some (s, "taken") ∧
    lookupStore s d room = some a :=
  ⟨toggle_booking_other s d room b a i hi hown (fun h => hne h.symm), hown⟩

/-- Witness for C4: U2 toggling U1's slot gets `"taken"` and the table is
unchanged. -/
theorem nonowner_conflict_witness :
    toggle_booking [(("Monday", "Small Room 1"), "U1")] "Monday" 0 "U2"
      = some ([(("Monday", "Small Room 1"), "U1")], "taken") ∧
    lookupStore [(("Monday", "Small Room 1"), "U1")] "Monday" "Small Room 1"
      = some "U1" :=
  nonowner_conflict [(("Monday", "Small Room 1"), "U1")]
    "Monday" "Small Room 1" "U1" "U2" 0 (by decide) (by decide) (by decide)

/-- Indices at or beyond the list length in either direction raise
`IndexError` on `ROOMS_DB` (length 6). -/
lemma pyListGet_rooms_none (j : Int) (hj : 6 ≤ j ∨ j < -6) :
    pyListGet ROOMS_DB j = none := by
  have hlen : ROOMS_DB.length = 6 := rfl
  unfold pyListGet
  rcases hj with hj | hj
  · rw [if_pos (by omega)]
    refine List.get?_eq_none.mpr ?_
    rw [hlen]
    omega
  · have h1 : ¬ (0 ≤ j) := by omega
    have h2 : ¬ (0 ≤ j + (ROOMS_DB.length : Int)) := by
      rw [hlen]
      omega
    rw [if_neg h1, if_neg h2]

/-- Counterexample to C5: the day identifier is never validated. Toggling
with the unconfigured day "Saturday" does not fail with an invalid-slot
outcome: it returns `"booked"` and creates a store row for that day. -/
theorem invalid_day_not_rejected :
    "Saturday" ∉ DAYS ∧
    toggle_booking [] "Saturday" 0 "U1"
      = some ([(("Saturday", "Small Room 1"), "U1")], "booked") := by
  decide

/-- C5 as amended: only resource indices outside Python's accepted range
(`j ≥ 6` or `j < -6`) make `toggle_booking` fail (an uncaught `IndexError`)
with no outcome and no store change; an unconfigured day is NOT rejected —
the call proceeds like any other day and can create a row for it. -/
theorem invalid_slot_behavior (s : Store) (d u room : String) (i j : Int) :
    ((6 ≤ j ∨ j < -6) → toggle_booking s d j u = none) ∧
    (d ∉ DAYS → pyListGet ROOMS_DB i = some room →
      lookupStore s d room = none →
      toggle_booking s d i u = some (upsertStore s d room u, "booked")) := by
  refine ⟨fun hj => ?_, fun _hd hi hfree => toggle_booking_free s d room u i hi hfree⟩
  simp [toggle_booking, pyListGet_rooms_none j hj]

/-- Witness for the amended C5 at concrete inputs: index 7 fails with no
outcome; day "Saturday" with index 0 books a row on the empty table. -/
theorem invalid_slot_behavior_witness :
    toggle_booking [] "Saturday" 7 "U1" = none ∧
    toggle_booking [] "Saturday" 0 "U1"
      = some (upsertStore [] "Saturday" "Small Room 1" "U1", "booked") :=
  ⟨(invalid_slot_behavior [] "Saturday" "U1" "Small Room 1" 0 7).1
      (Or.inl (by decide)),
   (invalid_slot_behavior [] "Saturday" "U1" "Small Room 1" 0 7).2
      (by decide) (by decide) rfl⟩

/-- Counterexample to C9: `-1` is outside `0..5`, yet `ROOMS_DB[-1]` does
not raise `IndexError` — Python negative indexing wraps to the last room,
the database connection is opened and the call returns `"booked"`. -/
theorem negative_index_wraps :
    ¬ (0 ≤ (-1 : Int) ∧ (-1 : Int) ≤ 5) ∧
    toggle_booking [] "Monday" (-1) "U1"
      = some ([(("Monday", "Large Room 4"), "U1")], "booked") := by
  decide

/-- C9 as amended: for a resource index `j ≥ 6` or `j < -6` the room-list
lookup raises `IndexError` before the store is touched: no outcome from
booked/unbooked/taken is produced and no slot state changes. (Indices in
`-6..-1` are accepted by Python's negative indexing and alias rooms from
the end of the list.) -/
theorem out_of_range_index_error (s : Store) (d u : String) (j : Int)
    (hj : 6 ≤ j ∨ j < -6) :
    toggle_booking s d j u = none := by
  simp [toggle_booking, pyListGet_rooms_none j hj]

/-- Witness for the amended C9: index 6 on the empty table produces no
outcome. -/
theorem out_of_range_index_error_witness :
    toggle_booking [] "Monday" 6 "U1" = none :=
  out_of_range_index_error [] "Monday" "U1" 6 (Or.inl (by decide))

/-- One fill-loop iteration never changes the grid's key skeleton: the day
keys and each day's room keys are preserved, only owner values change. -/
lemma applyRow_skeleton (g : Grid) (row : Row) :
    (applyRow g row).map (fun p => (p.1, p.2.map Prod.fst))
      = g.map (fun p => (p.1, p.2.map Prod.fst)) := by
  induction g with
  | nil => rfl
  | cons p t ih =>
      simp only [applyRow, List.map_cons] at ih ⊢
      refine congrArg₂ List.cons ?_ ih
      by_cases hp : (p.1 == row.1.1) = true
      · simp only [hp, if_true, List.map_map]
        refine congrArg (Prod.mk p.1) ?_
        induction p.2 with
        | nil => rfl
        | cons q qt ihq =>
            simp only [List.map_cons, Function.comp] at ihq ⊢
            refine congrArg₂ List.cons ?_ ihq
            by_cases hq : (q.1 == row.1.2) = true <;> simp [hq]
      · simp [hp]

/-- Folding any row list into a grid preserves the key skeleton. -/
lemma foldl_applyRow_skeleton (rows : Store) :
    ∀ g : Grid, ((rows.foldl applyRow g).map (fun p => (p.1, p.2.map Prod.fst)))
      = g.map (fun p => (p.1, p.2.map Prod.fst)) := by
  induction rows with
  | nil => intro g; rfl
  | cons row rest ih =>
      intro g
      rw [List.foldl_cons, ih, applyRow_skeleton]

/-- C6: reset completeness. Whatever the prior table contents, after
`reset_db` the snapshot shows every (day, room) slot of the configured
sets explicitly, all free. -/
theorem reset_completeness (s : Store) :
    get_weekly_bookings (reset_db s)
      = DAYS.map (fun d =>
          (d, ROOMS_DB.map (fun r => (r, (none : Option String))))) := rfl

/-- C7: for every table contents, the snapshot grid's keys are exactly the
Cartesian product of the 5 configured days and the 6 configured rooms: the
day keys are `DAYS` in order, each paired with the room keys `ROOMS_DB`,
5 day rows and 30 slots in total; an unowned slot is an explicit entry and
no key outside the configured sets appears. -/
theorem snapshot_grid_shape (s : Store) :
    (get_weekly_bookings s).map (fun p => (p.1, p.2.map Prod.fst))
      = DAYS.map (fun d => (d, ROOMS_DB)) ∧
    (get_weekly_bookings s).length = 5 ∧
    ((get_weekly_bookings s).map (fun p => p.2.length)).sum = 30 := by
  have hsk : (get_weekly_bookings s).map (fun p => (p.1, p.2.map Prod.fst))
      = DAYS.map (fun d => (d, ROOMS_DB)) :=
    (foldl_applyRow_skeleton s initGrid).trans rfl
  refine ⟨hsk, ?_, ?_⟩
  · have hl := congrArg List.length hsk
    simpa using hl
  · have hm := congrArg (List.map (fun p : String × List String => p.2.length)) hsk
    rw [List.map_map, List.map_map] at hm
    have hfun : ((fun p : String × List String => p.2.length) ∘
        (fun p : String × List (String × Option String) =>
          (p.1, p.2.map Prod.fst)))
        = fun p => p.2.length := by
      funext p
      simp
    rw [hfun] at hm
    rw [hm]
    decide

/-- Observable effects of one scheduler firing: the broadcast of the new
week's grid, or the logged scheduler error. -/
inductive SchedEvent : Type where
  | weekOpened (grid : Grid)
  | schedulerError
  deriving DecidableEq

/-- `scheduled_reset_and_post()` (src/app.py lines 174-188): inside one
`try`, `reset_db()` runs first and only then is the new-week message
posted with the freshly read dashboard (`get_dashboard_blocks` reads the
store via `get_weekly_bookings`); if `reset_db()` raises (a database
failure, external to the embedding and modelled by the `resetFails` flag),
control jumps to the `except` branch, which only prints the error —
no message is posted, the store is untouched and nothing is rescheduled.
The cron trigger itself (line 252) fires only at the weekly anchor. -/
def scheduled_reset_and_post (resetFails : Bool) (s : Store) :
    Store × List SchedEvent :=
  if resetFails then (s, [SchedEvent.schedulerError])
  else (reset_db s,
    [SchedEvent.weekOpened (get_weekly_bookings (reset_db s))])

/-- C8: on a successful firing the reset completes before the broadcast and
the broadcast carries exactly the post-reset (all-free) grid; on a failed
reset the only effect is the error report — no `weekOpened` broadcast, no
store change, and no retry action of any kind is emitted. -/
theorem reset_before_broadcast (s : Store) :
    scheduled_reset_and_post false s
      = (reset_db s,
         [SchedEvent.weekOpened (DAYS.map (fun d =>
            (d, ROOMS_DB.map (fun r => (r, (none : Option String))))))]) ∧
    scheduled_reset_and_post true s = (s, [SchedEvent.schedulerError]) :=
  ⟨rfl, rfl⟩

/-- `get_display_dates`'s reference Monday (src/app.py lines 41-52), with
time measured in whole days and day `0` a Monday, so that `today % 7` is
Python's `weekday()` (Mon = 0 ... Sun = 6): from Friday (4) on, jump ahead
`7 - weekday` days to next week's Monday; otherwise go back `weekday` days
to this week's Monday. -/
def nextMondayOf (today : Int) : Int :=
  if 4 ≤ today % 7 then today + (7 - today % 7)
  else today + (0 - today % 7)

/-- `get_display_dates()` (src/app.py lines 34-61): the five dashboard
dates, one per label, starting at the reference Monday. -/
def get_display_dates (today : Int) : List Int :=
  (List.range 5).map (fun i => nextMondayOf today + (i : Int))

/-- C10: for every current date the helper returns exactly 5 consecutive
dates anchored at a Monday (`nextMondayOf today % 7 = 0`): on Monday
through Thursday the anchor is the current week's Monday (it is `today`
rolled back by the current weekday), and on Friday, Saturday or Sunday it
is the following week's Monday (strictly after `today`, by `7 - weekday`
days). -/
theorem display_dates_monday_anchor (today : Int) :
    get_display_dates today
      = [nextMondayOf today, nextMondayOf today + 1, nextMondayOf today + 2,
         nextMondayOf today + 3, nextMondayOf today + 4] ∧
    nextMondayOf today % 7 = 0 ∧
    (today % 7 ≤ 3 →
      nextMondayOf today ≤ today ∧ today - nextMondayOf today = today % 7) ∧
    (4 ≤ today % 7 →
      today < nextMondayOf today ∧
      nextMondayOf today - today = 7 - today % 7) := by
  refine ⟨?_, ?_, fun h => ?_, fun h => ?_⟩
  · have hr : List.range 5 = [0, 1, 2, 3, 4] := rfl
    rw [get_display_dates, hr]
    norm_num
  · unfold nextMondayOf
    split <;> omega
  · unfold nextMondayOf
    rw [if_neg (by omega)]
    omega
  · unfold nextMondayOf
    rw [if_pos h]
    omega

/-- Witness for C10 at a Thursday (day 3) and a Friday (day 4): the
Thursday anchor is that week's Monday (day 0), the Friday anchor is the
next Monday (day 7), strictly in the future. -/
theorem display_dates_monday_anchor_witness :
    ((3 : Int) % 7 ≤ 3 ∧ nextMondayOf 3 ≤ 3 ∧
      (3 : Int) - nextMondayOf 3 = (3 : Int) % 7) ∧
    (4 ≤ (4 : Int) % 7 ∧ (4 : Int) < nextMondayOf 4 ∧
      nextMondayOf 4 - 4 = 7 - (4 : Int) % 7) :=
  ⟨⟨by decide, ((display_dates_monday_anchor 3).2.2.1 (by decide)).1,
      ((display_dates_monday_anchor 3).2.2.1 (by decide)).2⟩,
   ⟨by decide, ((display_dates_monday_anchor 4).2.2.2 (by decide)).1,
      ((display_dates_monday_anchor 4).2.2.2 (by decide)).2⟩⟩

end DeskBot
